import Mathlib

/-!
Verification of the dmr-ctl device-control layer against its specification.

The Python sources under `src/dmr_controller/` are shallowly embedded below:
pure computations become Lean functions, the HTTP side effects of each
operation are recorded as explicit request traces, and exception layering
(`try`/`except`) is rendered with `Option`/`Except` results.  Machine
integers are `Int`; Python's `int(...)` truncation of a true-division result
is rendered with exact rational arithmetic and truncation toward zero.
Python strings are `String`, with the handful of string primitives the code
uses (`str.lower`, `str.split`, substring membership via `in`) re-implemented
over `List Char` so that every definition evaluates inside the kernel.
-/

/-- Python `str.lower()` restricted to the ASCII range, which is the only
range the embedded code ever lowercases (device-type URNs and manufacturer
names). -/
def pyLower (s : String) : String := ⟨s.data.map Char.toLower⟩

/-- Helper for substring search: does the list begin with the pattern? -/
def startsWithL : List Char → List Char → Bool
  | _, [] => true
  | [], _ :: _ => false
  | c :: cs, p :: ps => c = p && startsWithL cs ps

/-- Helper for substring search: does the pattern occur anywhere? -/
def containsSubL (pat : List Char) : List Char → Bool
  | [] => startsWithL [] pat
  | c :: cs => startsWithL (c :: cs) pat || containsSubL pat cs

/-- Python's `pat in hay` substring test on strings. -/
def strContainsSub (hay pat : String) : Bool := containsSubL pat.data hay.data

/-- Helper for `pySplit`, working over the character list. -/
def splitCharL (sep : Char) : List Char → List (List Char)
  | [] => [[]]
  | c :: cs =>
    match splitCharL sep cs with
    | [] => [[]]
    | g :: gs => if c = sep then [] :: g :: gs else (c :: g) :: gs

/-- Python `s.split(sep)` for a one-character separator: splits at every
occurrence and keeps empty fields, so `"".split(":") = [""]`. -/
def pySplit (s : String) (sep : Char) : List String :=
  (splitCharL sep s.data).map (fun l => ⟨l⟩)

/-- Python `int(q)` applied to an exact rational: truncation toward zero. -/
def ratTrunc (q : ℚ) : ℤ := Int.tdiv q.num q.den

theorem ratTrunc_intCast (n : ℤ) : ratTrunc (n : ℚ) = n := by
  simp [ratTrunc, Rat.num_intCast, Rat.den_intCast, Int.tdiv_one]

/-! ## YamahaController volume mappings

`src/dmr_controller/yamaha_controller.py`.  `set_volume` (line 108) computes
the device-native value as `int((volume / 100) * 800 - 800)`; `get_status`
(line 73) converts a reported native value back with
`int((yamaha_vol + 800) / 800 * 100)`.  Python's `/` is true division, and
`int` truncates toward zero. -/

/-- Native value sent by `YamahaController.set_volume`: the source's local
variable `yamaha_volume = int((volume / 100) * 800 - 800)`. -/
def yamaha_volume (volume : ℤ) : ℤ := ratTrunc ((volume : ℚ) / 100 * 800 - 800)

/-- Percent value produced by `YamahaController.get_status` from the `Val`
element: `int((yamaha_vol + 800) / 800 * 100)`. -/
def status_volume (yamaha_vol : ℤ) : ℤ := ratTrunc (((yamaha_vol : ℚ) + 800) / 800 * 100)

theorem yamaha_volume_eq (p : ℤ) : yamaha_volume p = 8 * p - 800 := by
  have h : ((p : ℚ) / 100 * 800 - 800) = ((8 * p - 800 : ℤ) : ℚ) := by
    push_cast
    ring
  rw [yamaha_volume, h, ratTrunc_intCast]

theorem status_volume_eq (p : ℤ) : status_volume (8 * p - 800) = p := by
  have h : (((8 * p - 800 : ℤ) : ℚ) + 800) / 800 * 100 = ((p : ℤ) : ℚ) := by
    push_cast
    ring
  rw [status_volume, h, ratTrunc_intCast]

/-- C1: Yamaha volume mapping round-trip.  For every percent `p` in 0..100,
the write mapping `int(p/100 * 800 - 800)` stays within −800..0 and the read
mapping applied to it recovers a value within 1 of `p` (in fact exactly `p`);
in particular `set_volume(50)` sends native value −400 and `get_status`
parsing `<Val>-400</Val>` yields volume 50. -/
theorem C1_yamaha_volume_roundtrip (p : ℤ) (h0 : 0 ≤ p) (h1 : p ≤ 100) :
    -800 ≤ yamaha_volume p ∧ yamaha_volume p ≤ 0 ∧
    |status_volume (yamaha_volume p) - p| ≤ 1 ∧
    yamaha_volume 50 = -400 ∧ status_volume (-400) = 50 := by
  rw [yamaha_volume_eq]
  refine ⟨by omega, by omega, ?_, ?_, ?_⟩
  · rw [status_volume_eq]
    simp
  · rw [yamaha_volume_eq]
    norm_num
  · have h := status_volume_eq 50
    norm_num at h
    exact h

/-- Witness for C1 at `p = 50`. -/
theorem C1_yamaha_volume_roundtrip_witness :
    -800 ≤ yamaha_volume 50 ∧ yamaha_volume 50 ≤ 0 ∧
    |status_volume (yamaha_volume 50) - 50| ≤ 1 ∧
    yamaha_volume 50 = -400 ∧ status_volume (-400) = 50 :=
  C1_yamaha_volume_roundtrip 50 (by decide) (by decide)

/-! ## YamahaController HTTP transport

`YamahaController._send_command` (yamaha_controller.py lines 21-35) performs
`requests.post(self.base_url, data=xml_payload, headers=self.headers)` —
a single POST, inside one `try`, with **no** `timeout=` argument — and every
public operation of the class calls it exactly once.  Each operation's
hand-built `<YAMAHA_AV>` XML document is represented symbolically. -/

/-- Symbolic form of the XML documents built by the YamahaController
operations (`get_device_info`, `get_status`, `set_power`, `set_volume`,
`set_input`, `set_mute`, `get_input_list` in source order). -/
inductive YamahaPayload where
  | getParamSystemConfig : YamahaPayload
  | getBasicStatus : YamahaPayload
  | setPower (state : Bool) : YamahaPayload
  | setVolumeNative (native : ℤ) : YamahaPayload
  | setInputSel (source : String) : YamahaPayload
  | setMute (state : Bool) : YamahaPayload
  | getInputSelItem : YamahaPayload
deriving DecidableEq

/-- One HTTP POST as issued by the Yamaha transport: target URL, document
sent, and the `timeout=` argument passed to `requests.post` (`none` when the
call site passes no timeout, i.e. the request may block indefinitely). -/
structure YamahaPost where
  url : String
  payload : YamahaPayload
  timeout : Option ℕ
deriving DecidableEq

/-- Base URL built in `YamahaController.__init__`. -/
def yamaha_base_url (ip : String) : String :=
  "http://" ++ ip ++ "/YamahaRemoteControl/ctrl"

/-- Request trace of `YamahaController._send_command`: exactly one POST to
`base_url`, issued without any timeout argument. -/
def yamaha_send_command (base_url : String) (p : YamahaPayload) : List YamahaPost :=
  [{ url := base_url, payload := p, timeout := none }]

/-- Request trace of `YamahaController.get_device_info`. -/
def get_device_info_posts (ip : String) : List YamahaPost :=
  yamaha_send_command (yamaha_base_url ip) .getParamSystemConfig

/-- Request trace of `YamahaController.get_status`. -/
def get_status_posts (ip : String) : List YamahaPost :=
  yamaha_send_command (yamaha_base_url ip) .getBasicStatus

/-- Request trace of `YamahaController.set_power`. -/
def set_power_posts (ip : String) (power : Bool) : List YamahaPost :=
  yamaha_send_command (yamaha_base_url ip) (.setPower power)

/-- Request trace of `YamahaController.set_volume`; the document carries the
converted native volume. -/
def set_volume_posts (ip : String) (volume : ℤ) : List YamahaPost :=
  yamaha_send_command (yamaha_base_url ip) (.setVolumeNative (yamaha_volume volume))

/-- Request trace of `YamahaController.set_input`. -/
def set_input_posts (ip : String) (source : String) : List YamahaPost :=
  yamaha_send_command (yamaha_base_url ip) (.setInputSel source)

/-- Request trace of `YamahaController.set_mute`. -/
def set_mute_posts (ip : String) (mute : Bool) : List YamahaPost :=
  yamaha_send_command (yamaha_base_url ip) (.setMute mute)

/-- Request trace of `YamahaController.get_input_list`. -/
def get_input_list_posts (ip : String) : List YamahaPost :=
  yamaha_send_command (yamaha_base_url ip) .getInputSelItem

/-! ## YamahaController input enumeration and the static catalogue -/

/-- Result of `YamahaController.get_input_list` (yamaha_controller.py lines
154-177) as a function of the parsed device reply: `none` models
`_send_command` returning `None` (failed POST or unparseable XML); a list
gives the `text` of each `Input_Sel_Item/Item` element found (`none` inside
for an empty element).  The loop keeps `item.text` only when truthy, so
missing and empty texts are both skipped. -/
def get_input_list (resp : Option (List (Option String))) : List String :=
  match resp with
  | none => []
  | some items =>
    items.filterMap (fun t =>
      match t with
      | some s => if s = "" then none else some s
      | none => none)

/-- Receiver-routed input enumeration, `MediaController.get_yamaha_inputs`
(media_controller.py lines 1269-1273): delegates to the receiver's
`get_input_list` when a receiver is bound, else returns the empty list. -/
def get_yamaha_inputs (receiverBound : Bool) (resp : Option (List (Option String))) :
    List String :=
  if receiverBound then get_input_list resp else []

/-- Static catalogue of common input names hard-coded in
`MediaController.get_input_sources` (media_controller.py lines 948-956). -/
def input_sources_catalogue : List String :=
  ["HDMI1", "HDMI2", "HDMI3", "HDMI4", "HDMI5",
   "AV1", "AV2", "AV3", "AV4", "AV5", "AV6",
   "AUDIO1", "AUDIO2", "AUDIO3",
   "TUNER", "PHONO", "CD",
   "NET RADIO", "SERVER", "NAPSTER",
   "SPOTIFY", "BLUETOOTH", "USB",
   "AirPlay"]

/-- `MediaController.get_input_sources` (media_controller.py lines 940-960):
returns the static catalogue whenever a renderer is selected, without ever
querying the device; `None` when no renderer is selected. -/
def get_input_sources (rendererSelected : Bool) : Option (List String) :=
  if rendererSelected then some input_sources_catalogue else none

/-! ## SOAP transport retry loops

`media_controller.py` defines two local service classes inside
`MediaController._setup_av_transport`, each with its own `_send_command`
retry loop over `requests.post`:

* `AVTransportService._send_command` (lines 189-256): 3 attempts; catches
  `requests.Timeout`, `requests.ConnectionError`, then
  `requests.RequestException`; between failed attempts sleeps
  `retry_delay * (attempt + 1)` (line 253); re-raises the last exception
  after exhaustion.
* `RenderingControlService._send_command` (lines 341-385): same structure
  but sleeps the constant `retry_delay` (line 382).

`response.raise_for_status()` raises `requests.HTTPError` — a subclass of
`requests.RequestException` — when the response status is a 4xx/5xx, so a
non-2xx response is caught by the `RequestException` arm like any other
request failure. -/

/-- Outcome of one `requests.post` call: an HTTP response with a status
code, or one of the request exceptions the loop distinguishes. -/
inductive AttemptResult where
  | response (status : ℕ) : AttemptResult
  | timeoutExc : AttemptResult
  | connExc : AttemptResult
  | otherReqExc : AttemptResult
deriving DecidableEq

/-- Failure carried by a raised exception in the retry loop.  `httpError`
is `requests.HTTPError` raised by `raise_for_status` on a 4xx/5xx response;
`noAttempts` is the `RuntimeError` fallback of the final
`raise last_exception or RuntimeError(...)`. -/
inductive SoapFailure where
  | timeoutExc : SoapFailure
  | connExc : SoapFailure
  | httpError (status : ℕ) : SoapFailure
  | otherReqExc : SoapFailure
  | notResponding : SoapFailure
  | noAttempts : SoapFailure
deriving DecidableEq

/-- What one attempt raises, if anything: `raise_for_status` raises
`HTTPError` exactly on 4xx/5xx statuses; the three exception arms each
catch their exception and continue the loop. -/
def attemptFailure : AttemptResult → Option SoapFailure
  | .response s => if 400 ≤ s ∧ s < 600 then some (.httpError s) else none
  | .timeoutExc => some .timeoutExc
  | .connExc => some .connExc
  | .otherReqExc => some .otherReqExc

/-- Observable outcome of one `_send_command` call: how many attempts were
made, the sleeps performed between attempts (in order, in seconds), and the
exception raised out of the call (`none` when the call returned normally). -/
structure SendOutcome where
  attempts : ℕ
  sleeps : List ℕ
  raised : Option SoapFailure
deriving DecidableEq

/-- Shared retry loop shape, `for attempt in range(self.max_retries)`:
`remaining` counts the attempts still allowed, `attempt` is the 0-based
attempt index, `sleeps` accumulates in reverse, `last` is `last_exception`.
The sleep is skipped after the final attempt
(`if attempt < self.max_retries - 1`). -/
def soapRetryLoop (delayOf : ℕ → ℕ) (outcome : ℕ → AttemptResult) :
    ℕ → ℕ → List ℕ → Option SoapFailure → SendOutcome
  | 0, attempt, sleeps, last => ⟨attempt, sleeps.reverse, some (last.getD .noAttempts)⟩
  | remaining + 1, attempt, sleeps, _ =>
    match attemptFailure (outcome attempt) with
    | none => ⟨attempt + 1, sleeps.reverse, none⟩
    | some exc =>
      let sleeps' := if remaining > 0 then delayOf attempt :: sleeps else sleeps
      soapRetryLoop delayOf outcome remaining (attempt + 1) sleeps' (some exc)

/-- Configuration shared by both service classes: `self.timeout = 5`,
`self.max_retries = 3`, `self.retry_delay = 1`. -/
def soap_timeout : ℕ := 5

/-- Number of attempts configured on both services. -/
def max_retries : ℕ := 3

/-- Base delay (seconds) configured on both services. -/
def retry_delay : ℕ := 1

/-- Connect/read timeout pair used by `AVTransportService._send_command`
(line 223): doubled and quadrupled for extended-timeout commands. -/
def av_request_timeout (extended : Bool) : ℕ × ℕ :=
  if extended then (soap_timeout * 2, soap_timeout * 4) else (soap_timeout, soap_timeout * 2)

/-- `AVTransportService._send_command`: first a liveness probe
(`_check_renderer_available`; `available` is its result — failure raises
`RuntimeError` before any POST), then the retry loop with **linear** delay
`retry_delay * (attempt + 1)`. -/
def av_send_command (available : Bool) (outcome : ℕ → AttemptResult) : SendOutcome :=
  if available then
    soapRetryLoop (fun attempt => retry_delay * (attempt + 1)) outcome max_retries 0 [] none
  else ⟨0, [], some .notResponding⟩

/-- `RenderingControlService._send_command`: no liveness probe, and the
retry loop sleeps the **constant** `retry_delay` between attempts. -/
def rc_send_command (outcome : ℕ → AttemptResult) : SendOutcome :=
  soapRetryLoop (fun _ => retry_delay) outcome max_retries 0 [] none

/-! ## MediaController renderer selection

`MediaController.set_renderer` (media_controller.py lines 102-149) and
`MediaController._setup_av_transport` (lines 151-421), with the playback
guards of `play`/`pause`/`stop`/`set_volume` (lines 606-698). -/

/-- Renderer descriptor as read by `set_renderer`: `location`,
`device_type` and `manufacturer` extracted via `.get`/`getattr` with `''`
defaults. -/
structure RendererDesc where
  location : String
  device_type : String
  manufacturer : String
deriving DecidableEq

/-- MediaController fields touched by renderer selection.  The two service
slots record only presence (`some ()` = a service object is bound), and
`receiver` records the host string a bound `YamahaController` was given. -/
structure MCState where
  current_renderer : Option RendererDesc
  av_transport : Option Unit
  rendering_control : Option Unit
  receiver : Option String
deriving DecidableEq

/-- Fresh `MediaController.__init__` state: every slot `None`. -/
def mcInit : MCState :=
  { current_renderer := none, av_transport := none, rendering_control := none,
    receiver := none }

/-- Host extraction `location.split('/')[2]` used to construct the
`YamahaController` (line 130); `none` models the `IndexError` when the URL
has fewer than three `/`-separated fields. -/
def yamahaHostOf (location : String) : Option String :=
  (pySplit location '/')[2]?

/-- `MediaController._setup_av_transport`.  After the location check, the
body executes `class AVTransportService: ...` whose class suite ends with
the statements `self.services = [AVTransportService(location),
RenderingControlService(location)]` (lines 396-399) at class-body
indentation; evaluating them during class creation raises `NameError`
(neither `self` nor the still-unbound class name exists there), the outer
`except` at line 419 catches it, and the method returns `False` without
ever assigning `self._av_transport` or `self._rendering_control`.  So the
method leaves the state unchanged and fails on every input. -/
def setup_av_transport (st : MCState) : MCState × Bool :=
  let location := match st.current_renderer with
    | some r => r.location
    | none => ""
  if location = "" then (st, false)
  else (st, false)

/-- `MediaController.set_renderer`.  Empty location fails; a manufacturer
containing `"yamaha"` (lowercased) binds a `YamahaController` and returns
`True` immediately; if extracting the host raises `IndexError`, `receiver`
is reset and control falls through to the generic-DLNA path, which stores
the descriptor in `current_renderer`, calls `_setup_av_transport` with its
return value ignored, and returns `True`. -/
def set_renderer (st : MCState) (r : RendererDesc) : MCState × Bool :=
  if r.location = "" then (st, false)
  else if strContainsSub (pyLower r.manufacturer) "yamaha" then
    match yamahaHostOf r.location with
    | some host => ({ st with receiver := some host }, true)
    | none =>
      let st1 := { st with receiver := none, current_renderer := some r }
      ((setup_av_transport st1).1, true)
  else
    let st1 := { st with current_renderer := some r }
    ((setup_av_transport st1).1, true)

/-- Guarded `MediaController.play` (lines 606-634): fails unless both
`current_renderer` and `_av_transport` are set; `transportOk` abstracts
whether the SOAP calls in the `try` body succeed. -/
def mc_play (st : MCState) (transportOk : Bool) : Bool :=
  if st.current_renderer.isNone || st.av_transport.isNone then false else transportOk

/-- Guarded `MediaController.pause` (lines 636-652). -/
def mc_pause (st : MCState) (transportOk : Bool) : Bool :=
  if st.current_renderer.isNone || st.av_transport.isNone then false else transportOk

/-- Guarded `MediaController.stop` (lines 654-670). -/
def mc_stop (st : MCState) (transportOk : Bool) : Bool :=
  if st.current_renderer.isNone || st.av_transport.isNone then false else transportOk

/-- Guarded `MediaController.set_volume` (lines 672-698): requires
`current_renderer` and `_rendering_control`. -/
def mc_set_volume (st : MCState) (transportOk : Bool) : Bool :=
  if st.current_renderer.isNone || st.rendering_control.isNone then false else transportOk

/-! ## DeviceDiscovery categorization

`DeviceDiscovery._categorize_devices` (discovery.py lines 37-53). -/

/-- Raw device descriptor as consumed by categorization. -/
structure RawDevice where
  device_type : String
  friendly_name : String
  location : String
deriving DecidableEq

/-- Test `'mediarenderer' in device_type.lower()`. -/
def isRendererType (d : RawDevice) : Bool :=
  strContainsSub (pyLower d.device_type) "mediarenderer"

/-- Test `'mediaserver' in device_type.lower()` (the `elif` arm). -/
def isServerType (d : RawDevice) : Bool :=
  strContainsSub (pyLower d.device_type) "mediaserver"

/-- Predicate for a device that takes the media-server branch of the
`if`/`elif` (renderer match is checked first). -/
def serverBranch (d : RawDevice) : Bool := !isRendererType d && isServerType d

/-- Loop of `_categorize_devices`: one pass over the devices, appending
renderers to the first list and servers to the second, skipping a server
whose `location` is already in the `seen_server_locations` set. -/
def categorize_devices_aux : List RawDevice → List String → List RawDevice × List RawDevice
  | [], _ => ([], [])
  | d :: rest, seen =>
    if isRendererType d then
      let r := categorize_devices_aux rest seen
      (d :: r.1, r.2)
    else if isServerType d then
      if seen.contains d.location then categorize_devices_aux rest seen
      else
        let r := categorize_devices_aux rest (d.location :: seen)
        (r.1, d :: r.2)
    else categorize_devices_aux rest seen

/-- `DeviceDiscovery._categorize_devices`: returns
`(media_renderers, media_servers)` starting from an empty seen-set. -/
def categorize_devices (devices : List RawDevice) : List RawDevice × List RawDevice :=
  categorize_devices_aux devices []

/-! ## DeviceDiscovery.browse_media_server

Lines 88-207 of discovery.py.  The DIDL-Lite documents the device returns
are embedded structurally: a parsed `Browse` reply is a list of `container`
elements and a list of `item` elements (`none` for the whole reply models an
exception from the SOAP call or `ElementTree.fromstring`).  `_format_size`
renders a byte count with float arithmetic and is abstracted as the
`formatSize` parameter. -/

/-- Parsed DIDL-Lite `container` element: optional `id` attribute, optional
`dc:title` child (whose own text may be `None`), optional `childCount`
attribute. -/
structure DidlContainer where
  id : Option String
  titleText : Option (Option String)
  childCount : Option String
deriving DecidableEq

/-- Parsed DIDL-Lite `res` element: its text, and the `protocolInfo`,
`size`, `duration` attributes. -/
structure DidlRes where
  text : Option String
  protocolInfo : Option String
  size : Option String
  duration : Option String
deriving DecidableEq

/-- Parsed DIDL-Lite `item` element: optional `id` attribute, optional
`dc:title` child, optional `res` child. -/
structure DidlItem where
  id : Option String
  titleText : Option (Option String)
  res : Option DidlRes
deriving DecidableEq

/-- Result of the nested `BrowseMetadata` lookup (lines 126-142): the inner
`try` may fail, the parsed document may hold no `container` element, or a
container is found and carries an optional `parentID` attribute. -/
inductive MetaResult where
  | failed : MetaResult
  | noContainer : MetaResult
  | container (parentID : Option String) : MetaResult
deriving DecidableEq

/-- `parent_id` computed by lines 125-142: starts at `"0"`, replaced by
`container.get('parentID', "0")` when the metadata lookup parses and finds
a container, and left `"0"` on any failure. -/
def parentIdOf : MetaResult → String
  | .failed => "0"
  | .noContainer => "0"
  | .container pid => pid.getD "0"

/-- One dictionary appended to the `items` result list; keys absent from a
given dictionary kind are `none`. -/
structure BrowseEntry where
  id : Option String
  title : String
  etype : String
  is_parent : Bool
  uri : Option (Option String) := none
  child_count : Option String := none
  size : Option String := none
  duration : Option String := none
deriving DecidableEq

/-- Python `f"{x}"` on an optional text: `None` renders as `"None"`. -/
def pyStr (o : Option String) : String := o.getD "None"

/-- Synthesized parent-navigation entry (lines 152-157). -/
def parentEntry (parent_id : String) : BrowseEntry :=
  { id := some parent_id, title := "📁 ..", etype := "container", is_parent := true }

/-- Container loop (lines 162-176): containers with a title element become
entries (`child_count` suffix when the attribute is non-empty); the rest
are skipped. -/
def extractContainers : List DidlContainer → List BrowseEntry
  | [] => []
  | c :: rest =>
    match c.titleText with
    | some t =>
      let cc := c.childCount.getD ""
      let child_info := if cc = "" then "" else " (" ++ cc ++ ")"
      { id := c.id, title := "📁 " ++ pyStr t ++ child_info, etype := "container",
        is_parent := false, child_count := some cc } :: extractContainers rest
    | none => extractContainers rest

/-- Item loop (lines 181-200): items need both a title and a `res` child;
the media type is `res.get('protocolInfo', '').split(':')[2]`, whose
`IndexError` on a malformed attribute aborts the whole browse (`none`). -/
def extractItems (formatSize : String → String) :
    List DidlItem → Option (List BrowseEntry)
  | [] => some []
  | it :: rest =>
    match it.titleText, it.res with
    | some t, some r =>
      let fields := pySplit (r.protocolInfo.getD "") ':'
      match fields[2]? with
      | none => none
      | some ty =>
        let size := r.size.getD ""
        let duration := r.duration.getD ""
        let size_info := if size = "" then "" else " (" ++ formatSize size ++ ")"
        let duration_info := if duration = "" then "" else " [" ++ duration ++ "]"
        let entry : BrowseEntry :=
          { id := it.id, title := pyStr t ++ size_info ++ duration_info, etype := ty,
            is_parent := false, uri := some r.text, size := some size,
            duration := some duration }
        (extractItems formatSize rest).map (entry :: ·)
    | _, _ => extractItems formatSize rest

/-- `DeviceDiscovery.browse_media_server`.  `cdFound` is whether a
ContentDirectory service was found on the server; `browseResult` is the
parsed `BrowseDirectChildren` reply (`none` = the call or the DIDL parse
raised); `meta` is the outcome of the `BrowseMetadata` lookup, consulted
only when `object_id` is not the root.  Any `IndexError` in the item loop is
caught by the outermost `except`, which returns the empty list. -/
def browse_media_server (formatSize : String → String) (cdFound : Bool)
    (object_id : String) (browseResult : Option (List DidlContainer × List DidlItem))
    (meta : MetaResult) : List BrowseEntry :=
  if !cdFound then []
  else match browseResult with
    | none => []
    | some (cs, its) =>
      let base := if object_id = "0" then [] else [parentEntry (parentIdOf meta)]
      match extractItems formatSize its with
      | none => []
      | some itemEntries => base ++ extractContainers cs ++ itemEntries

/-! ## Concrete fixtures used by witnesses and counterexamples -/

/-- Generic (non-Yamaha) renderer descriptor. -/
def sonyRenderer : RendererDesc :=
  { location := "http://192.168.1.10:8080/desc.xml",
    device_type := "urn:schemas-upnp-org:device:MediaRenderer:1",
    manufacturer := "Sony" }

/-- Yamaha renderer descriptor. -/
def yamahaRenderer : RendererDesc :=
  { location := "http://192.168.1.20:80/desc.xml",
    device_type := "urn:schemas-upnp-org:device:MediaRenderer:1",
    manufacturer := "Yamaha Corporation" }

/-- DIDL container with a title and a child count. -/
def musicContainer : DidlContainer :=
  { id := some "10", titleText := some (some "Music"), childCount := some "2" }

/-- DIDL item whose `protocolInfo` has only two colon-delimited fields. -/
def malformedItem : DidlItem :=
  { id := some "11", titleText := some (some "Song"),
    res := some { text := some "http://192.168.1.100:8200/music/song.mp3",
                  protocolInfo := some "http-get:*", size := none, duration := none } }

/-! ## Shared helper lemmas -/

theorem setup_av_transport_eq (st : MCState) : setup_av_transport st = (st, false) := by
  cases h : st.current_renderer <;> simp [setup_av_transport, h]

theorem soapRetryLoop_succ (d : ℕ → ℕ) (o : ℕ → AttemptResult)
    (remaining attempt : ℕ) (sleeps : List ℕ) (last : Option SoapFailure) :
    soapRetryLoop d o (remaining + 1) attempt sleeps last =
      match attemptFailure (o attempt) with
      | none => ⟨attempt + 1, sleeps.reverse, none⟩
      | some exc =>
        soapRetryLoop d o remaining (attempt + 1)
          (if remaining > 0 then d attempt :: sleeps else sleeps) (some exc) := rfl

theorem soapRetryLoop_zero (d : ℕ → ℕ) (o : ℕ → AttemptResult)
    (attempt : ℕ) (sleeps : List ℕ) (last : Option SoapFailure) :
    soapRetryLoop d o 0 attempt sleeps last =
      ⟨attempt, sleeps.reverse, some (last.getD .noAttempts)⟩ := rfl

/-! ## Claim C2 — renderer selection atomicity -/

/-- C2 counterexample: on a generic descriptor the selection never binds the
two services (`_setup_av_transport` always fails), yet `set_renderer`
returns `True` and leaves `current_renderer` set — the claimed
return-`False`-and-unwind behaviour does not happen. -/
theorem C2_counterexample :
    (set_renderer mcInit sonyRenderer).2 = true ∧
    (set_renderer mcInit sonyRenderer).1.current_renderer = some sonyRenderer ∧
    (set_renderer mcInit sonyRenderer).1.av_transport = none ∧
    (set_renderer mcInit sonyRenderer).1.rendering_control = none := by
  decide

/-- C2 amended: on the generic DLNA path (non-empty location, manufacturer
not containing "yamaha") `set_renderer` always returns `True` and stores the
descriptor in `current_renderer`, while `_setup_av_transport` always returns
`False` without binding `_av_transport` or `_rendering_control`; the partial
state (renderer set, services missing) is therefore the normal outcome, not
prevented. -/
theorem C2_renderer_selection_not_atomic (st : MCState) (r : RendererDesc)
    (hloc : r.location ≠ "")
    (hman : strContainsSub (pyLower r.manufacturer) "yamaha" = false) :
    set_renderer st r = ({ st with current_renderer := some r }, true) ∧
    (set_renderer st r).1.av_transport = st.av_transport ∧
    (set_renderer st r).1.rendering_control = st.rendering_control ∧
    setup_av_transport st = (st, false) := by
  have h : set_renderer st r = ({ st with current_renderer := some r }, true) := by
    simp [set_renderer, hloc, hman, setup_av_transport_eq]
  exact ⟨h, by rw [h], by rw [h], setup_av_transport_eq st⟩

/-- Witness for the amended C2 at a concrete generic descriptor. -/
theorem C2_renderer_selection_not_atomic_witness :
    set_renderer mcInit sonyRenderer =
      ({ mcInit with current_renderer := some sonyRenderer }, true) ∧
    (set_renderer mcInit sonyRenderer).1.av_transport = mcInit.av_transport ∧
    (set_renderer mcInit sonyRenderer).1.rendering_control = mcInit.rendering_control ∧
    setup_av_transport mcInit = (mcInit, false) :=
  C2_renderer_selection_not_atomic mcInit sonyRenderer (by decide) (by decide)

/-! ## Claim C5 — Yamaha transport: single POST, timeout -/

/-- C5 counterexample: the single POST of `get_status` carries no timeout
argument at all, so in particular no fixed timeout between 1 and 5 seconds. -/
theorem C5_counterexample :
    (get_status_posts "192.168.1.20").map (fun p => p.timeout) = [none] ∧
    ¬ ∃ t : ℕ, (get_status_posts "192.168.1.20").map (fun p => p.timeout) = [some t] := by
  refine ⟨rfl, ?_⟩
  rintro ⟨t, h⟩
  simp [get_status_posts, yamaha_send_command] at h

/-- C5 amended: every YamahaController operation performs exactly one HTTP
POST (no retry loop), but that POST is issued with **no** timeout — the
call may block indefinitely. -/
theorem C5_single_post_no_timeout (ip source : String) (power mute : Bool) (volume : ℤ) :
    get_device_info_posts ip = [⟨yamaha_base_url ip, .getParamSystemConfig, none⟩] ∧
    get_status_posts ip = [⟨yamaha_base_url ip, .getBasicStatus, none⟩] ∧
    set_power_posts ip power = [⟨yamaha_base_url ip, .setPower power, none⟩] ∧
    set_volume_posts ip volume =
      [⟨yamaha_base_url ip, .setVolumeNative (yamaha_volume volume), none⟩] ∧
    set_input_posts ip source = [⟨yamaha_base_url ip, .setInputSel source, none⟩] ∧
    set_mute_posts ip mute = [⟨yamaha_base_url ip, .setMute mute, none⟩] ∧
    get_input_list_posts ip = [⟨yamaha_base_url ip, .getInputSelItem, none⟩] :=
  ⟨rfl, rfl, rfl, rfl, rfl, rfl, rfl⟩

/-! ## Claim C6 — input enumeration fallback -/

/-- C6 counterexample: with a receiver bound and a device reply containing
no `Input_Sel_Item` items, the receiver-routed enumeration returns the
empty list, not the static catalogue. -/
theorem C6_counterexample :
    get_yamaha_inputs true (some []) = [] ∧
    get_yamaha_inputs true none = [] ∧
    get_yamaha_inputs true (some []) ≠ input_sources_catalogue := by
  decide

/-- C6 amended: `get_input_list` yields the empty list when the device
returns no items (or the command fails); the static catalogue is only ever
produced by the separate `get_input_sources` method, which never queries the
device. -/
theorem C6_no_fallback_catalogue :
    get_input_list none = [] ∧
    get_input_list (some []) = [] ∧
    get_input_sources true = some input_sources_catalogue ∧
    input_sources_catalogue ≠ [] := by
  decide

/-! ## Claim C3 — non-2xx responses and retries -/

/-- C3 counterexample: a device that answers HTTP 500 on the first attempt
is retried — the transport makes all 3 attempts (sleeping in between) and
only then surfaces the `HTTPError`, contradicting the claimed immediate
surfacing with no further attempt. -/
theorem C3_counterexample :
    av_send_command true (fun _ => AttemptResult.response 500) =
      { attempts := 3, sleeps := [1, 2], raised := some (SoapFailure.httpError 500) } ∧
    (av_send_command true (fun _ => AttemptResult.response 500)).attempts ≠ 1 := by
  decide

/-- C3 amended: `raise_for_status` on a non-2xx (4xx/5xx) response raises
`requests.HTTPError`, which the `except requests.RequestException` arm
catches like a timeout, so both transports retry it; the device-rejected
status only surfaces after all 3 attempts are exhausted, as the re-raised
last exception. -/
theorem C3_http_error_is_retried (outcome : ℕ → AttemptResult) (s : ℕ)
    (h4 : 400 ≤ s) (h6 : s < 600) (ho : ∀ a, a < 3 → outcome a = .response s) :
    av_send_command true outcome =
      { attempts := 3, sleeps := [1, 2], raised := some (.httpError s) } ∧
    rc_send_command outcome =
      { attempts := 3, sleeps := [1, 1], raised := some (.httpError s) } := by
  have h0 := ho 0 (by omega)
  have h1 := ho 1 (by omega)
  have h2 := ho 2 (by omega)
  have hf : attemptFailure (AttemptResult.response s) = some (.httpError s) := by
    simp [attemptFailure, h4, h6]
  constructor <;>
    simp [av_send_command, rc_send_command, max_retries, retry_delay,
      soapRetryLoop_succ, soapRetryLoop_zero, h0, h1, h2, hf]

/-- Witness for the amended C3 with a constant-500 device. -/
theorem C3_http_error_is_retried_witness :
    av_send_command true (fun _ => AttemptResult.response 500) =
      { attempts := 3, sleeps := [1, 2], raised := some (.httpError 500) } ∧
    rc_send_command (fun _ => AttemptResult.response 500) =
      { attempts := 3, sleeps := [1, 1], raised := some (.httpError 500) } :=
  C3_http_error_is_retried (fun _ => AttemptResult.response 500) 500
    (by decide) (by decide) (fun _ _ => rfl)

/-! ## Claim C4 — backoff shape of the two SOAP paths -/

/-- C4 counterexample: on the RenderingControl path the delays between the
3 failed attempts are the constant `retry_delay` — 1s then 1s — not the
claimed linear `retry_delay * attemptNumber` (1s then 2s). -/
theorem C4_counterexample :
    (rc_send_command (fun _ => AttemptResult.timeoutExc)).sleeps = [1, 1] ∧
    (rc_send_command (fun _ => AttemptResult.timeoutExc)).sleeps ≠
      [retry_delay * 1, retry_delay * 2] := by
  decide

/-- C4 amended: only `AVTransportService._send_command` backs off linearly
(`retry_delay * (attempt + 1)`, i.e. 1s then 2s);
`RenderingControlService._send_command` sleeps the constant `retry_delay`
(1s then 1s). -/
theorem C4_backoff_linear_av_constant_rc (outcome : ℕ → AttemptResult)
    (hfail : ∀ a, a < 3 → (attemptFailure (outcome a)).isSome = true) :
    (av_send_command true outcome).sleeps = [retry_delay * 1, retry_delay * 2] ∧
    (rc_send_command outcome).sleeps = [retry_delay, retry_delay] := by
  obtain ⟨e0, h0⟩ := Option.isSome_iff_exists.mp (hfail 0 (by omega))
  obtain ⟨e1, h1⟩ := Option.isSome_iff_exists.mp (hfail 1 (by omega))
  obtain ⟨e2, h2⟩ := Option.isSome_iff_exists.mp (hfail 2 (by omega))
  constructor <;>
    simp [av_send_command, rc_send_command, max_retries, retry_delay,
      soapRetryLoop_succ, soapRetryLoop_zero, h0, h1, h2]

/-- Witness for the amended C4 with a timing-out device. -/
theorem C4_backoff_linear_av_constant_rc_witness :
    (av_send_command true (fun _ => AttemptResult.timeoutExc)).sleeps =
      [retry_delay * 1, retry_delay * 2] ∧
    (rc_send_command (fun _ => AttemptResult.timeoutExc)).sleeps =
      [retry_delay, retry_delay] :=
  C4_backoff_linear_av_constant_rc (fun _ => AttemptResult.timeoutExc)
    (fun _ _ => rfl)

/-! ## Claim C7 — synthesized parent entries in browse results -/

theorem mem_extractContainers {e : BrowseEntry} :
    ∀ {cs : List DidlContainer}, e ∈ extractContainers cs → e.is_parent = false := by
  intro cs
  induction cs with
  | nil => intro h; simp [extractContainers] at h
  | cons c rest ih =>
    intro h
    cases ht : c.titleText with
    | none =>
      rw [extractContainers, ht] at h
      exact ih h
    | some t =>
      rw [extractContainers, ht] at h
      rcases List.mem_cons.mp h with he | he
      · rw [he]
      · exact ih he

theorem mem_extractItems {fs : String → String} {e : BrowseEntry} :
    ∀ {its : List DidlItem} {es : List BrowseEntry},
      extractItems fs its = some es → e ∈ es → e.is_parent = false := by
  intro its
  induction its with
  | nil =>
    intro es hes hmem
    rw [extractItems] at hes
    cases hes
    simp at hmem
  | cons it rest ih =>
    intro es hes hmem
    rw [extractItems] at hes
    cases ht : it.titleText with
    | none =>
      rw [ht] at hes
      cases hr : it.res <;> rw [hr] at hes <;> exact ih hes hmem
    | some t =>
      rw [ht] at hes
      cases hr : it.res with
      | none => rw [hr] at hes; exact ih hes hmem
      | some r =>
        rw [hr] at hes
        simp only at hes
        cases hty : (pySplit (r.protocolInfo.getD "") ':')[2]? with
        | none => rw [hty] at hes; cases hes
        | some ty =>
          rw [hty] at hes
          simp only [Option.map_eq_some'] at hes
          obtain ⟨es', hes', rfl⟩ := hes
          rcases List.mem_cons.mp hmem with he | he
          · rw [he]
          · exact ih hes' he

/-- C7: browsing a non-root container whose listing parses (and whose item
loop raises nothing) yields the synthesized parent entry first — a
container entry marked `is_parent` whose id is the parentID recovered from
the BrowseMetadata lookup, `"0"` when that lookup fails — while browsing the
root `"0"` never yields any `is_parent` entry. -/
theorem C7_parent_navigation :
    (∀ (fs : String → String) (object_id : String) (cs : List DidlContainer)
        (its : List DidlItem) (meta : MetaResult) (es : List BrowseEntry),
        object_id ≠ "0" → extractItems fs its = some es →
        (browse_media_server fs true object_id (some (cs, its)) meta).head? =
          some (parentEntry (parentIdOf meta))) ∧
    (∀ (fs : String → String) (cdFound : Bool)
        (br : Option (List DidlContainer × List DidlItem)) (meta : MetaResult)
        (e : BrowseEntry), e ∈ browse_media_server fs cdFound "0" br meta →
        e.is_parent = false) := by
  constructor
  · intro fs object_id cs its meta es hoid hits
    simp [browse_media_server, hoid, hits, parentEntry]
  · intro fs cdFound br meta e he
    cases cdFound with
    | false => simp [browse_media_server] at he
    | true =>
      cases br with
      | none => simp [browse_media_server] at he
      | some p =>
        obtain ⟨cs, its⟩ := p
        rw [browse_media_server] at he
        simp only [Bool.not_true, Bool.false_eq_true, if_false, reduceIte] at he
        cases hits : extractItems fs its with
        | none => rw [hits] at he; simp at he
        | some es =>
          rw [hits] at he
          simp only [List.nil_append, List.mem_append] at he
          rcases he with he | he
          · exact mem_extractContainers he
          · exact mem_extractItems hits he

/-- Witness for C7: part one at a concrete non-root browse, part two at a
concrete root browse containing one container entry. -/
theorem C7_parent_navigation_witness :
    ((browse_media_server (fun s => s) true "1" (some ([musicContainer], []))
        (MetaResult.container (some "0"))).head? =
      some (parentEntry (parentIdOf (MetaResult.container (some "0"))))) ∧
    ({ id := some "10", title := "📁 Music (2)", etype := "container",
       is_parent := false, child_count := some "2" } : BrowseEntry).is_parent = false :=
  ⟨C7_parent_navigation.1 (fun s => s) "1" [musicContainer] [] (MetaResult.container (some "0"))
      [] (by decide) rfl,
   C7_parent_navigation.2 (fun s => s) true (some ([musicContainer], [])) MetaResult.failed
      { id := some "10", title := "📁 Music (2)", etype := "container",
        is_parent := false, child_count := some "2" } (by decide)⟩

/-! ## Claim C9 — Yamaha selection bypasses the DLNA transport -/

/-- C9: selecting a renderer whose manufacturer contains "yamaha" (with the
host extraction succeeding) returns `True` while leaving
`current_renderer`, `_av_transport` and `_rendering_control` unset, so on
that selection `play`, `pause`, `stop` and `set_volume` all return `False`
regardless of what the transport would do. -/
theorem C9_yamaha_selection_disables_transport (r : RendererDesc) (host : String)
    (hy : strContainsSub (pyLower r.manufacturer) "yamaha" = true)
    (hloc : r.location ≠ "")
    (hhost : yamahaHostOf r.location = some host) :
    set_renderer mcInit r = ({ mcInit with receiver := some host }, true) ∧
    (∀ ok, mc_play (set_renderer mcInit r).1 ok = false) ∧
    (∀ ok, mc_pause (set_renderer mcInit r).1 ok = false) ∧
    (∀ ok, mc_stop (set_renderer mcInit r).1 ok = false) ∧
    (∀ ok, mc_set_volume (set_renderer mcInit r).1 ok = false) := by
  have hsr : set_renderer mcInit r = ({ mcInit with receiver := some host }, true) := by
    simp [set_renderer, hloc, hy, hhost]
  refine ⟨hsr, ?_, ?_, ?_, ?_⟩ <;> intro ok <;> rw [hsr] <;>
    simp [mc_play, mc_pause, mc_stop, mc_set_volume, mcInit]

/-- Witness for C9 at a concrete Yamaha descriptor. -/
theorem C9_yamaha_selection_disables_transport_witness :
    set_renderer mcInit yamahaRenderer =
      ({ mcInit with receiver := some "192.168.1.20:80" }, true) ∧
    mc_play (set_renderer mcInit yamahaRenderer).1 true = false ∧
    mc_pause (set_renderer mcInit yamahaRenderer).1 true = false ∧
    mc_stop (set_renderer mcInit yamahaRenderer).1 true = false ∧
    mc_set_volume (set_renderer mcInit yamahaRenderer).1 true = false := by
  have h := C9_yamaha_selection_disables_transport yamahaRenderer "192.168.1.20:80"
    (by decide) (by decide) (by decide)
  exact ⟨h.1, h.2.1 true, h.2.2.1 true, h.2.2.2.1 true, h.2.2.2.2 true⟩

/-! ## Claim C10 — a malformed item erases the whole listing -/

/-- C10: an item with title and `res` but a `protocolInfo` of fewer than
three colon-delimited fields makes `split(':')[2]` raise, and the outer
handler returns the empty list, discarding the already-parsed container;
removing the malformed item restores the parent and container entries. -/
theorem C10_malformed_protocolinfo_discards_listing :
    browse_media_server (fun s => s) true "1"
      (some ([musicContainer], [malformedItem])) MetaResult.failed = [] ∧
    (pySplit "http-get:*" ':').length < 3 ∧
    browse_media_server (fun s => s) true "1"
      (some ([musicContainer], [])) MetaResult.failed =
      [parentEntry "0",
       { id := some "10", title := "📁 Music (2)", etype := "container",
         is_parent := false, child_count := some "2" }] := by
  decide

/-! ## Claim C8 — server deduplication by location -/

theorem categorize_step_renderer (d : RawDevice) (rest : List RawDevice)
    (seen : List String) (h : isRendererType d = true) :
    categorize_devices_aux (d :: rest) seen =
      ((d :: (categorize_devices_aux rest seen).1), (categorize_devices_aux rest seen).2) := by
  simp only [categorize_devices_aux, h]
  simp

theorem categorize_step_seen_server (d : RawDevice) (rest : List RawDevice)
    (seen : List String) (h1 : isRendererType d = false) (h2 : isServerType d = true)
    (h3 : seen.contains d.location = true) :
    categorize_devices_aux (d :: rest) seen = categorize_devices_aux rest seen := by
  simp only [categorize_devices_aux, h1, h2, h3]
  simp

theorem categorize_step_new_server (d : RawDevice) (rest : List RawDevice)
    (seen : List String) (h1 : isRendererType d = false) (h2 : isServerType d = true)
    (h3 : seen.contains d.location = false) :
    categorize_devices_aux (d :: rest) seen =
      ((categorize_devices_aux rest (d.location :: seen)).1,
        d :: (categorize_devices_aux rest (d.location :: seen)).2) := by
  simp only [categorize_devices_aux, h1, h2, h3]
  simp

theorem categorize_step_other (d : RawDevice) (rest : List RawDevice)
    (seen : List String) (h1 : isRendererType d = false) (h2 : isServerType d = false) :
    categorize_devices_aux (d :: rest) seen = categorize_devices_aux rest seen := by
  simp only [categorize_devices_aux, h1, h2]
  simp

theorem categorize_servers_filter (L : String) :
    ∀ (devices : List RawDevice) (seen : List String),
      ((categorize_devices_aux devices seen).2.filter (fun d => d.location == L)) =
        if seen.contains L then []
        else (devices.find? (fun d => serverBranch d && d.location == L)).toList := by
  intro devices
  induction devices with
  | nil =>
    intro seen
    simp [categorize_devices_aux]
  | cons d rest ih =>
    intro seen
    cases hr : isRendererType d with
    | true =>
      rw [categorize_step_renderer d rest seen hr]
      have hp : (serverBranch d && (d.location == L)) = false := by
        simp [serverBranch, hr]
      simp only [List.find?_cons, hp]
      exact ih seen
    | false =>
      cases hs : isServerType d with
      | true =>
        have hb : serverBranch d = true := by simp [serverBranch, hr, hs]
        cases hseen : seen.contains d.location with
        | true =>
          rw [categorize_step_seen_server d rest seen hr hs hseen]
          rw [ih seen]
          by_cases hL : d.location = L
          · subst hL
            have hmem : d.location ∈ seen := List.elem_iff.mp hseen
            simp [hmem]
          · have hp : (serverBranch d && (d.location == L)) = false := by
              simp [hL]
            simp only [List.find?_cons, hp]
        | false =>
          rw [categorize_step_new_server d rest seen hr hs hseen]
          have hnm : d.location ∉ seen := by
            intro hm
            have h2 : seen.contains d.location = true := List.elem_iff.mpr hm
            rw [h2] at hseen
            exact Bool.noConfusion hseen
          by_cases hL : d.location = L
          · subst hL
            simp [List.filter_cons, List.find?_cons, hb, ih, List.contains_cons, hnm]
          · have hf : (d.location == L) = false := beq_eq_false_iff_ne.mpr hL
            have hLf : (L == d.location) = false :=
              beq_eq_false_iff_ne.mpr (fun h => hL h.symm)
            simp [List.filter_cons, List.find?_cons, hf, hLf, Bool.and_false, ih,
              List.contains_cons]
            simp [show ¬L = d.location from fun h => hL h.symm]
      | false =>
        rw [categorize_step_other d rest seen hr hs]
        have hp : (serverBranch d && (d.location == L)) = false := by
          simp [serverBranch, hs]
        simp only [List.find?_cons, hp]
        exact ih seen

/-- C8: the classification of discovered devices keeps, for every location,
exactly the first device that takes the media-server branch with that
location — later media-server descriptors at the same location are dropped,
and no location ever has more than one retained server entry. -/
theorem C8_discovery_dedup (devices : List RawDevice) (L : String) :
    ((categorize_devices devices).2.filter (fun d => d.location == L)) =
      (devices.find? (fun d => serverBranch d && d.location == L)).toList ∧
    ((categorize_devices devices).2.filter (fun d => d.location == L)).length ≤ 1 := by
  have h := categorize_servers_filter L devices []
  simp only [List.contains, List.elem_nil, Bool.false_eq_true, if_false] at h
  rw [categorize_devices]
  refine ⟨h, ?_⟩
  rw [h]
  cases devices.find? (fun d => serverBranch d && d.location == L) <;> simp
